import Mathlib

/-!
Verification development for the solemn-declaration contact-form service
(`app.py`, `redis_helper.py`). The OTP issuance/verification state machine,
the resend cooldown, the fixed-window rate limiter and the ephemeral-store
error discipline are embedded shallowly: time is modelled in integral
milliseconds (`Nat`), the Redis store for a single email is an
`Option OTPRecord` (Redis evicts a key once its TTL lapses), and the
in-process fallback dict entry for a single email is likewise an
`Option OTPRecord` whose expiry is checked manually by the code.
Operations on distinct emails touch disjoint keys (`otp:{email}`,
`otp_resend:{email}`, `rate_limit:...:{ip}`), so a per-email / per-client
state suffices for the per-email and per-client claims.
-/

/-- One live OTP record for an email: the 6-digit code string, the failed
attempt counter, and the absolute expiry instant in milliseconds
(write time + 5 minutes). In Redis this is the hash at `otp:{email}`
(fields `otp`, `attempts`, `created_at`) plus the TTL set by `expire`;
in the fallback it is the dict value `{otp, expires_at, attempts}`. -/
structure OTPRecord where
  otp : String
  attempts : Nat
  expiresAt : Nat
  deriving Repr, DecidableEq

/-- The OTP store state for one email: `none` when no live record exists. -/
abbrev OtpState := Option OTPRecord

/-- The exact outcome messages `verify_otp` can return (second component of
its `(bool, message)` result), one constructor per distinct source message.
`invalidRemaining n` is the Redis-path message
"Invalid OTP. n attempt(s) remaining"; `invalid` is the fallback-path
message "Invalid OTP" (no remaining count). -/
inductive OtpMsg where
  | success
  | notFoundOrExpired
  | notFound
  | expired
  | tooMany
  | invalidRemaining (remaining : Nat)
  | invalid
  deriving Repr, DecidableEq

/-- The spec-level result taxonomy for `verify`. -/
inductive SpecVerdict where
  | Verified
  | InvalidCode
  | TooManyAttempts
  | Expired
  | NotFound
  deriving Repr, DecidableEq

/-- Map each concrete source message to the spec-level taxonomy.
"OTP not found or expired" (Redis path, key absent or TTL-evicted) is the
spec's `NotFound` ("no live record ... or evicted by TTL"). -/
def classify : OtpMsg → SpecVerdict
  | .success => .Verified
  | .notFoundOrExpired => .NotFound
  | .notFound => .NotFound
  | .expired => .Expired
  | .tooMany => .TooManyAttempts
  | .invalidRemaining _ => .InvalidCode
  | .invalid => .InvalidCode

/-- `store_otp`, Redis branch (`app.py` 214-224): `hset` writes the fields
`otp`, `attempts='0'`, `created_at` (overwriting any existing hash fields)
and `expire(key, 300)` sets a fresh 5-minute TTL. -/
def store_otp_redis (t : Nat) (code : String) (_st : OtpState) : OtpState :=
  some ⟨code, 0, t + 300000⟩

/-- `store_otp`, in-memory fallback branch (`app.py` 225-231):
`otp_storage[email] = {otp, expires_at = now + 5 min, attempts = 0}`,
overwriting any previous entry. -/
def store_otp_mem (t : Nat) (code : String) (_st : OtpState) : OtpState :=
  some ⟨code, 0, t + 300000⟩

/-- `verify_otp`, Redis branch (`app.py` 235-264). `exists` is false once
the TTL has lapsed (Redis evicts the key, modelled as resulting state
`none`). On a match the key is deleted; on a mismatch `new_attempts =
attempts + 1` is computed, and if it reaches 3 the key is deleted with
"Too many incorrect attempts", otherwise `hincrby` bumps the counter and
the message carries `remaining = 3 - new_attempts`. -/
def verify_otp_redis (t : Nat) (submitted : String) (st : OtpState) :
    OtpMsg × OtpState :=
  match st with
  | none => (.notFoundOrExpired, none)
  | some r =>
    if t < r.expiresAt then
      if r.otp = submitted then
        (.success, none)
      else if 3 ≤ r.attempts + 1 then
        (.tooMany, none)
      else
        (.invalidRemaining (3 - (r.attempts + 1)),
          some ⟨r.otp, r.attempts + 1, r.expiresAt⟩)
    else
      (.notFoundOrExpired, none)

/-- `verify_otp`, in-memory fallback branch (`app.py` 265-288). Order of
checks as in the source: record presence, then `now > expires_at`
(delete, "OTP has expired"), then `attempts >= 3` (delete, "Too many
incorrect attempts"), then the code match (delete, success), else
`attempts += 1` with the bare message "Invalid OTP". -/
def verify_otp_mem (t : Nat) (submitted : String) (st : OtpState) :
    OtpMsg × OtpState :=
  match st with
  | none => (.notFound, none)
  | some r =>
    if r.expiresAt < t then
      (.expired, none)
    else if 3 ≤ r.attempts then
      (.tooMany, none)
    else if r.otp = submitted then
      (.success, none)
    else
      (.invalid, some ⟨r.otp, r.attempts + 1, r.expiresAt⟩)

/-! ## Resend cooldown and issuance flows (`resend_otp`, `handle_form_submission`) -/

/-- Outcome of the `/resend-otp` handler core: a new code was issued and
mailed, or the cooldown message "please wait N seconds" was flashed. -/
inductive ResendResult where
  | sent
  | cooldown (remainingSeconds : Nat)
  deriving Repr, DecidableEq

/-- The cooldown entry for one email: `none` when absent, `some last` when
the last resend happened at instant `last` (ms). Redis stores
`current_time.isoformat()` at `otp_resend:{email}` with `ex=30`; the
fallback stores the datetime in `otp_resend_cooldown[email]`. -/
abbrev CooldownState := Option Nat

/-- Redis `get` of the cooldown key at time `t`: the key was written with a
30-second TTL, so it is present only while `t < last + 30000`. -/
def cooldown_get_redis (t : Nat) (cd : CooldownState) : Option Nat :=
  match cd with
  | some last => if t < last + 30000 then some last else none
  | none => none

/-- `resend_otp` core, Redis branch (`app.py` 611-623, 637-639): read the
cooldown key; if present and `time_diff < 30`, flash the cooldown message
with `remaining = int(30 - time_diff)` (`time_diff` is a fractional-second
float; in exact arithmetic over milliseconds this truncation is
`(30000 - diff) / 1000` in `Nat`); otherwise write the cooldown key
(`ex=30`) and store a fresh OTP. -/
def resend_otp_redis (t : Nat) (code : String) (st : OtpState)
    (cd : CooldownState) : ResendResult × OtpState × CooldownState :=
  match cooldown_get_redis t cd with
  | some last =>
    if t - last < 30000 then
      (.cooldown ((30000 - (t - last)) / 1000), st, cd)
    else
      (.sent, store_otp_redis t code st, some t)
  | none => (.sent, store_otp_redis t code st, some t)

/-- `resend_otp` core, fallback branch (`app.py` 624-639): check the
in-memory cooldown map the same way (entries are only dropped by
`cleanup_old_data` after an hour, so presence is not TTL-bound), then
update the tracker and store a fresh OTP. -/
def resend_otp_mem (t : Nat) (code : String) (st : OtpState)
    (cd : CooldownState) : ResendResult × OtpState × CooldownState :=
  match cd with
  | some last =>
    if t - last < 30000 then
      (.cooldown ((30000 - (t - last)) / 1000), st, cd)
    else
      (.sent, store_otp_mem t code st, some t)
  | none => (.sent, store_otp_mem t code st, some t)

/-- `handle_form_submission` OTP issuance core (`app.py` 442-454), Redis
backend active: after validation it calls `generate_otp()` and
`store_otp(email, otp)`; it neither reads nor writes the resend-cooldown
entry. -/
def handle_form_submission_redis (t : Nat) (code : String) (st : OtpState)
    (cd : CooldownState) : OtpState × CooldownState :=
  (store_otp_redis t code st, cd)

/-- `handle_form_submission` OTP issuance core, fallback backend active:
likewise only `store_otp`; the cooldown map is untouched. -/
def handle_form_submission_mem (t : Nat) (code : String) (st : OtpState)
    (cd : CooldownState) : OtpState × CooldownState :=
  (store_otp_mem t code st, cd)

/-! ## Fixed-window rate limiting in `index` (`app.py` 364-393) -/

/-- Admission decision of a rate-limit block. -/
inductive Admit where
  | admitted
  | rejected
  deriving Repr, DecidableEq

/-- The counter at `rate_limit:<scope>:<ip>`: count plus the absolute
expiry instant of the window (set once, by the `set(..., ex=window)` that
created the key; `incr` does not refresh the TTL). -/
structure RateWindow where
  count : Nat
  expiresAt : Nat
  deriving Repr, DecidableEq

/-- The rate-limit state for one (scope, client) pair. -/
abbrev RateState := Option RateWindow

/-- One pass through a rate-limit block of `index` with ceiling `limit` and
window `window` ms (Redis available). `get` returns the counter string
only while the key is unexpired; if absent, `set(key, 1, ex=window)` and
admit; if present (always a truthy nonempty string, the count being ≥ 1)
and `≥ limit`, reject without incrementing; otherwise `incr` and admit. -/
def rate_limit_step (limit window t : Nat) (st : RateState) :
    Admit × RateState :=
  match st with
  | none => (.admitted, some ⟨1, t + window⟩)
  | some w =>
    if t < w.expiresAt then
      if limit ≤ w.count then
        (.rejected, some w)
      else
        (.admitted, some ⟨w.count + 1, w.expiresAt⟩)
    else
      (.admitted, some ⟨1, t + window⟩)

/-- The form-submission rate-limit block (`app.py` 366-375): max 10 per
3600-second window per client address. -/
def form_rate_step (t : Nat) (st : RateState) : Admit × RateState :=
  rate_limit_step 10 3600000 t st

/-- The OTP-verification rate-limit block (`app.py` 381-390): max 15 per
300-second window per client address. -/
def otp_rate_step (t : Nat) (st : RateState) : Admit × RateState :=
  rate_limit_step 15 300000 t st

/-- The form-submission step of `index` including the availability guard
(`app.py` 366: `if redis_helper.is_available():`): when Redis is
unavailable the whole rate-limit block is skipped and the request
proceeds unconditionally. -/
def form_rate_check (avail : Bool) (t : Nat) (st : RateState) :
    Admit × RateState :=
  if avail then form_rate_step t st else (.admitted, st)

/-- The OTP-verification step of `index` including the availability guard
(`app.py` 381). -/
def otp_rate_check (avail : Bool) (t : Nat) (st : RateState) :
    Admit × RateState :=
  if avail then otp_rate_step t st else (.admitted, st)

/-- Run a sequence of rate-limit passes at the given call times. -/
def rate_limit_run (limit window : Nat) (st : RateState) :
    List Nat → RateState
  | [] => st
  | t :: ts => rate_limit_run limit window (rate_limit_step limit window t st).2 ts

/-! ## The `RedisHelper` store layer (`redis_helper.py`) -/

/-- What the underlying `redis` client call did: returned a value, or
raised (connection error, timeout, ...). `none` inside `ok` models a
Redis nil reply where the value type is optional. -/
inductive BackendResp (α : Type) where
  | ok (v : α)
  | exn
  deriving Repr, DecidableEq

/-- `RedisHelper.get` (`redis_helper.py` 34-42): unavailable or raising
calls return the supplied `default`; a nil reply also returns `default`. -/
def rh_get (avail : Bool) (resp : BackendResp (Option String))
    (default : Option String) : Option String :=
  if avail then
    match resp with
    | .ok (some v) => some v
    | .ok none => default
    | .exn => default
  else default

/-- `RedisHelper.set` (44-52): `False` when unavailable or raising. -/
def rh_set (avail : Bool) (resp : BackendResp Bool) : Bool :=
  if avail then
    match resp with
    | .ok b => b
    | .exn => false
  else false

/-- `RedisHelper.hget` (54-62): like `get`, with a `default`. -/
def rh_hget (avail : Bool) (resp : BackendResp (Option String))
    (default : Option String) : Option String :=
  if avail then
    match resp with
    | .ok (some v) => some v
    | .ok none => default
    | .exn => default
  else default

/-- `RedisHelper.hset` (64-72): `False` when unavailable or raising. -/
def rh_hset (avail : Bool) (resp : BackendResp Bool) : Bool :=
  if avail then
    match resp with
    | .ok b => b
    | .exn => false
  else false

/-- `RedisHelper.expire` (74-82): `False` when unavailable or raising. -/
def rh_expire (avail : Bool) (resp : BackendResp Bool) : Bool :=
  if avail then
    match resp with
    | .ok b => b
    | .exn => false
  else false

/-- `RedisHelper.delete` (84-92): `False` when unavailable or raising. -/
def rh_delete (avail : Bool) (resp : BackendResp Bool) : Bool :=
  if avail then
    match resp with
    | .ok b => b
    | .exn => false
  else false

/-- `RedisHelper.exists` (94-102): `False` when unavailable or raising. -/
def rh_exists (avail : Bool) (resp : BackendResp Bool) : Bool :=
  if avail then
    match resp with
    | .ok b => b
    | .exn => false
  else false

/-- `RedisHelper.incr` (104-112): `None` when unavailable or raising. -/
def rh_incr (avail : Bool) (resp : BackendResp Int) : Option Int :=
  if avail then
    match resp with
    | .ok n => some n
    | .exn => none
  else none

/-- `RedisHelper.hincrby` (114-122): `None` when unavailable or raising. -/
def rh_hincrby (avail : Bool) (resp : BackendResp Int) : Option Int :=
  if avail then
    match resp with
    | .ok n => some n
    | .exn => none
  else none

/-- The availability state of the helper: `redis_available` is assigned in
`_connect`, which runs once, from `RedisHelper.__init__`. -/
structure RedisHelperState where
  redisAvailable : Bool
  deriving Repr, DecidableEq

/-- `RedisHelper.__init__` / `_connect` (`redis_helper.py` 11-28): the one
start-up probe (`ping`) sets `redis_available`. -/
def rh_init (probeOk : Bool) : RedisHelperState := ⟨probeOk⟩

/-- Effect of one store call on the helper state (`redis_helper.py` 34-122):
every method catches its exception and returns the default signal, and
none of them assigns `redis_available` or calls `_connect` again — the
state is unchanged whether the call failed or not. -/
def rh_after_call (st : RedisHelperState) (_callFailed : Bool) :
    RedisHelperState := st

/-- `RedisHelper.is_available` (30-32): just reads the stored flag (the
`redis_client is not None` conjunct is determined by the same probe). -/
def is_available (st : RedisHelperState) : Bool := st.redisAvailable

/-- Which store the OTP operations use. -/
inductive Backend where
  | redis
  | memory
  deriving Repr, DecidableEq

/-- Backend selection in `store_otp` / `verify_otp` / `resend_otp`
(`app.py` 214, 235, 611): the Redis branch is taken exactly when
`redis_helper.is_available()`, regardless of the backend's actual health
at call time. -/
def otp_backend_choice (st : RedisHelperState) : Backend :=
  if is_available st then .redis else .memory

/-! ## Claim theorems -/

/-- C2: in `verify`, the code-match check outcome wins at `attempts = 2`:
for every email whose live OTP record has two recorded failures, a verify
call with the correct code returns Verified and deletes the record — not
TooManyAttempts — under both the Redis backend and the in-process
fallback. -/
theorem third_attempt_correct_code_verifies
    (code : String) (t e : Nat) (ht : t < e) :
    verify_otp_redis t code (some ⟨code, 2, e⟩) = (.success, none) ∧
    verify_otp_mem t code (some ⟨code, 2, e⟩) = (.success, none) := by
  refine ⟨?_, ?_⟩
  · simp [verify_otp_redis, ht]
  · simp [verify_otp_mem, Nat.not_lt.mpr ht.le]

/-- Witness for C2: a record for code "123456" with 2 failed attempts and
expiry 300000 ms, verified with the correct code at t = 1000 ms. -/
theorem third_attempt_correct_code_verifies_witness :
    (1000 : Nat) < 300000 ∧
    (verify_otp_redis 1000 "123456" (some ⟨"123456", 2, 300000⟩)
        = (.success, none) ∧
      verify_otp_mem 1000 "123456" (some ⟨"123456", 2, 300000⟩)
        = (.success, none)) :=
  ⟨by decide, third_attempt_correct_code_verifies "123456" 1000 300000 (by decide)⟩

/-- C8: no `RedisHelper` method lets an exception escape: each method is a
total function of the backend response, and whenever the backend raises
(`BackendResp.exn`) or the helper is unavailable, `get`/`hget` return the
supplied default, `set`/`hset`/`expire`/`delete`/`exists` return `false`,
and `incr`/`hincrby` return `none`. -/
theorem redis_helper_methods_return_unavailable_signal
    (avail : Bool) (rs : BackendResp (Option String))
    (rb : BackendResp Bool) (ri : BackendResp Int)
    (default : Option String) :
    rh_get avail .exn default = default ∧
    rh_get false rs default = default ∧
    rh_hget avail .exn default = default ∧
    rh_hget false rs default = default ∧
    rh_set avail .exn = false ∧
    rh_set false rb = false ∧
    rh_hset avail .exn = false ∧
    rh_hset false rb = false ∧
    rh_expire avail .exn = false ∧
    rh_expire false rb = false ∧
    rh_delete avail .exn = false ∧
    rh_delete false rb = false ∧
    rh_exists avail .exn = false ∧
    rh_exists false rb = false ∧
    rh_incr avail .exn = none ∧
    rh_incr false ri = none ∧
    rh_hincrby avail .exn = none ∧
    rh_hincrby false ri = none := by
  cases avail <;>
    simp [rh_get, rh_hget, rh_set, rh_hset, rh_expire, rh_delete,
      rh_exists, rh_incr, rh_hincrby]

/-- Counterexample to C9: a store call that fails does NOT make the next
call re-probe or switch the backend. Concretely, after start-up with a
successful probe, a failed store call leaves the helper reporting
available, so the next OTP operation still takes the Redis branch (the
claim predicts the post-start-up failure changes the backend used); and
symmetrically a helper whose start-up probe failed never takes the Redis
branch again, however healthy the backend has become. -/
theorem per_call_probe_counterexample :
    otp_backend_choice (rh_after_call (rh_init true) true) = .redis ∧
    otp_backend_choice (rh_after_call (rh_init false) false) = .memory := by
  decide

/-- C9 amended: failures are non-sticky only in the sense that a failed
call leaves `redis_available` untouched (if the start-up probe succeeded,
the next call attempts Redis again); but availability is probed exactly
once, at construction, so after any sequence of call failures/successes
`is_available` still equals the start-up probe result and the OTP
operations' backend choice never changes for the life of the process. -/
theorem availability_fixed_at_startup
    (probeOk : Bool) (callOutcomes : List Bool) :
    is_available (List.foldl rh_after_call (rh_init probeOk) callOutcomes)
        = probeOk ∧
    otp_backend_choice
        (List.foldl rh_after_call (rh_init probeOk) callOutcomes)
      = otp_backend_choice (rh_init probeOk) := by
  have h : List.foldl rh_after_call (rh_init probeOk) callOutcomes
      = rh_init probeOk := by
    induction callOutcomes with
    | nil => rfl
    | cons b bs ih => simpa [rh_after_call] using ih
  rw [h]
  exact ⟨rfl, rfl⟩

/-- C10: when the distributed store is unavailable, both rate-limit blocks
in `index` are skipped entirely — every form-submit and every
OTP-verification request is admitted, whatever the stored counters say,
and no counter state changes. -/
theorem fallback_mode_admits_everything
    (t t2 : Nat) (st st2 : RateState) :
    form_rate_check false t st = (.admitted, st) ∧
    otp_rate_check false t2 st2 = (.admitted, st2) := by
  simp [form_rate_check, otp_rate_check]

/-- Counterexample to C1: under the in-process fallback backend the third
consecutive wrong-code verify does NOT return TooManyAttempts and does
NOT delete the record — it returns the bare "Invalid OTP" and leaves the
record live with `attempts = 3` (issue "123456" at t = 0, three verifies
with "000000" at t = 1000). -/
theorem three_wrong_attempts_fallback_counterexample :
    classify (verify_otp_mem 1000 "000000"
        (verify_otp_mem 1000 "000000"
          (verify_otp_mem 1000 "000000"
            (store_otp_mem 0 "123456" none)).2).2).1
      ≠ SpecVerdict.TooManyAttempts ∧
    (verify_otp_mem 1000 "000000"
        (verify_otp_mem 1000 "000000"
          (verify_otp_mem 1000 "000000"
            (store_otp_mem 0 "123456" none)).2).2).2
      ≠ none := by
  decide

/-- C1 amended: under the Redis backend, three consecutive wrong-code
verifies on a fresh record return InvalidCode(remaining=2),
InvalidCode(remaining=1), TooManyAttempts (the record deleted when the
post-increment count reaches 3), and any subsequent verify returns
NotFound. Under the in-process fallback, each of the first three wrong
verifies returns the bare InvalidCode (no remaining count); the record
survives with `attempts = 3` and is only deleted by a fourth call, which
returns TooManyAttempts whatever code it submits; verifies after that
return NotFound. -/
theorem three_wrong_attempts_per_backend
    (c w s : String) (t0 t : Nat) (hcw : c ≠ w) (ht : t < t0 + 300000) :
    (verify_otp_redis t w (store_otp_redis t0 c none)
        = (.invalidRemaining 2, some ⟨c, 1, t0 + 300000⟩)) ∧
    (verify_otp_redis t w (some ⟨c, 1, t0 + 300000⟩)
        = (.invalidRemaining 1, some ⟨c, 2, t0 + 300000⟩)) ∧
    (verify_otp_redis t w (some ⟨c, 2, t0 + 300000⟩) = (.tooMany, none)) ∧
    (verify_otp_redis t s none = (.notFoundOrExpired, none)) ∧
    (verify_otp_mem t w (store_otp_mem t0 c none)
        = (.invalid, some ⟨c, 1, t0 + 300000⟩)) ∧
    (verify_otp_mem t w (some ⟨c, 1, t0 + 300000⟩)
        = (.invalid, some ⟨c, 2, t0 + 300000⟩)) ∧
    (verify_otp_mem t w (some ⟨c, 2, t0 + 300000⟩)
        = (.invalid, some ⟨c, 3, t0 + 300000⟩)) ∧
    (verify_otp_mem t s (some ⟨c, 3, t0 + 300000⟩) = (.tooMany, none)) ∧
    (verify_otp_mem t s none = (.notFound, none)) := by
  have hmem : ¬ (t0 + 300000 < t) := Nat.not_lt.mpr ht.le
  refine ⟨?_, ?_, ?_, ?_, ?_, ?_, ?_, ?_, ?_⟩ <;>
    simp [verify_otp_redis, verify_otp_mem, store_otp_redis, store_otp_mem,
      ht, hmem, hcw]

/-- Witness for C1 (amended): code "123456" issued at t0 = 0, wrong code
"000000", arbitrary later code "111111", all calls at t = 1000. -/
theorem three_wrong_attempts_per_backend_witness :
    ("123456" ≠ "000000" ∧ (1000 : Nat) < 0 + 300000) ∧
    ((verify_otp_redis 1000 "000000" (store_otp_redis 0 "123456" none)
        = (.invalidRemaining 2, some ⟨"123456", 1, 0 + 300000⟩)) ∧
      (verify_otp_redis 1000 "000000" (some ⟨"123456", 1, 0 + 300000⟩)
        = (.invalidRemaining 1, some ⟨"123456", 2, 0 + 300000⟩)) ∧
      (verify_otp_redis 1000 "000000" (some ⟨"123456", 2, 0 + 300000⟩)
        = (.tooMany, none)) ∧
      (verify_otp_redis 1000 "111111" none = (.notFoundOrExpired, none)) ∧
      (verify_otp_mem 1000 "000000" (store_otp_mem 0 "123456" none)
        = (.invalid, some ⟨"123456", 1, 0 + 300000⟩)) ∧
      (verify_otp_mem 1000 "000000" (some ⟨"123456", 1, 0 + 300000⟩)
        = (.invalid, some ⟨"123456", 2, 0 + 300000⟩)) ∧
      (verify_otp_mem 1000 "000000" (some ⟨"123456", 2, 0 + 300000⟩)
        = (.invalid, some ⟨"123456", 3, 0 + 300000⟩)) ∧
      (verify_otp_mem 1000 "111111" (some ⟨"123456", 3, 0 + 300000⟩)
        = (.tooMany, none)) ∧
      (verify_otp_mem 1000 "111111" none = (.notFound, none))) :=
  ⟨⟨by decide, by decide⟩,
    three_wrong_attempts_per_backend "123456" "000000" "111111" 0 1000
      (by decide) (by decide)⟩

/-- Counterexample to C3: the two store variants are not behaviorally
swappable. Issue "123456" at t = 0 and verify three times with "000000"
at t = 1000: on the third call the Redis backend returns TooManyAttempts
and has deleted the record, while the fallback returns InvalidCode and
still holds the record — both the outward result and the deletion point
differ. -/
theorem backend_swappable_counterexample :
    classify (verify_otp_redis 1000 "000000"
        (verify_otp_redis 1000 "000000"
          (verify_otp_redis 1000 "000000"
            (store_otp_redis 0 "123456" none)).2).2).1
      ≠ classify (verify_otp_mem 1000 "000000"
        (verify_otp_mem 1000 "000000"
          (verify_otp_mem 1000 "000000"
            (store_otp_mem 0 "123456" none)).2).2).1 ∧
    (verify_otp_redis 1000 "000000"
        (verify_otp_redis 1000 "000000"
          (verify_otp_redis 1000 "000000"
            (store_otp_redis 0 "123456" none)).2).2).2
      ≠ (verify_otp_mem 1000 "000000"
        (verify_otp_mem 1000 "000000"
          (verify_otp_mem 1000 "000000"
            (store_otp_mem 0 "123456" none)).2).2).2 := by
  decide

/-- C3 amended: the two variants agree only on a subset of behaviors: with
no live record both report NotFound and keep nothing; on a live,
unexpired record with at most two failures and a matching code both
return Verified and delete the record; and on a wrong code with at most
one prior failure both report an InvalidCode-class result (the Redis one
carrying a remaining count, the fallback one not) and both bump the
attempt counter by one. They diverge on the third wrong attempt
(TooManyAttempts + delete vs InvalidCode + keep), on the remaining-count
payload, and on expiry reporting (NotFound vs Expired). -/
theorem backend_agreement_subset
    (r : OTPRecord) (t : Nat) (s : String) (ht : t < r.expiresAt) :
    (classify (verify_otp_redis t s none).1 = .NotFound ∧
      (verify_otp_redis t s none).2 = none ∧
      classify (verify_otp_mem t s none).1 = .NotFound ∧
      (verify_otp_mem t s none).2 = none) ∧
    (r.attempts ≤ 2 → r.otp = s →
      verify_otp_redis t s (some r) = (.success, none) ∧
      verify_otp_mem t s (some r) = (.success, none)) ∧
    (r.attempts ≤ 1 → r.otp ≠ s →
      classify (verify_otp_redis t s (some r)).1 = .InvalidCode ∧
      classify (verify_otp_mem t s (some r)).1 = .InvalidCode ∧
      (verify_otp_redis t s (some r)).2
          = some ⟨r.otp, r.attempts + 1, r.expiresAt⟩ ∧
      (verify_otp_mem t s (some r)).2
          = some ⟨r.otp, r.attempts + 1, r.expiresAt⟩) := by
  have hm : ¬ (r.expiresAt < t) := Nat.not_lt.mpr ht.le
  refine ⟨?_, ?_, ?_⟩
  · simp [verify_otp_redis, verify_otp_mem, classify]
  · intro ha hs
    have h3 : ¬ (3 ≤ r.attempts) := by omega
    exact ⟨by simp [verify_otp_redis, ht, hs],
      by simp [verify_otp_mem, hm, h3, hs]⟩
  · intro ha hs
    have h3 : ¬ (3 ≤ r.attempts) := by omega
    have h3' : ¬ (3 ≤ r.attempts + 1) := by omega
    refine ⟨?_, ?_, ?_, ?_⟩ <;>
      simp [verify_otp_redis, verify_otp_mem, classify, ht, hm, h3, h3', hs]

/-- Witness for C3 (amended): the match case at two prior failures and the
wrong-code case at one prior failure, both at t = 0 on records expiring
at 300000 ms. -/
theorem backend_agreement_subset_witness :
    ((0 : Nat) < 300000 ∧ (2 : Nat) ≤ 2 ∧ (1 : Nat) ≤ 1 ∧
      "123456" ≠ "999999") ∧
    (verify_otp_redis 0 "123456" (some ⟨"123456", 2, 300000⟩)
        = (.success, none) ∧
      verify_otp_mem 0 "123456" (some ⟨"123456", 2, 300000⟩)
        = (.success, none)) ∧
    (classify (verify_otp_redis 0 "999999" (some ⟨"123456", 1, 300000⟩)).1
        = .InvalidCode ∧
      classify (verify_otp_mem 0 "999999" (some ⟨"123456", 1, 300000⟩)).1
        = .InvalidCode ∧
      (verify_otp_redis 0 "999999" (some ⟨"123456", 1, 300000⟩)).2
        = some ⟨"123456", 2, 300000⟩ ∧
      (verify_otp_mem 0 "999999" (some ⟨"123456", 1, 300000⟩)).2
        = some ⟨"123456", 2, 300000⟩) :=
  ⟨⟨by decide, by decide, by decide, by decide⟩,
    (backend_agreement_subset ⟨"123456", 2, 300000⟩ 0 "123456"
        (by decide)).2.1 (by decide) (by decide),
    (backend_agreement_subset ⟨"123456", 1, 300000⟩ 0 "999999"
        (by decide)).2.2 (by decide) (by decide)⟩

/-- Counterexample to C5: the ResendCooldown entry is NOT created on a
form-submit issuance. Submit the form at t = 0 (issuing "123456"); a
resend only 1 second later succeeds and issues a new code, under both
backends — so a new OTP can be issued within 30 seconds of the previous
issuance. -/
theorem cooldown_on_issuance_counterexample :
    (resend_otp_redis 1000 "654321"
        (handle_form_submission_redis 0 "123456" none none).1
        (handle_form_submission_redis 0 "123456" none none).2).1
      = .sent ∧
    (resend_otp_mem 1000 "654321"
        (handle_form_submission_mem 0 "123456" none none).1
        (handle_form_submission_mem 0 "123456" none none).2).1
      = .sent := by
  decide

/-- C5 amended: the ResendCooldown entry is created/overwritten only by
the resend operation; form-submit issuance neither writes nor checks it.
Consequently a resend issued less than 30 seconds after the previous
resend fails and changes nothing, but a form-submit issuance is never
blocked by the cooldown and a first resend (no cooldown entry) always
succeeds no matter how recently the form-submit issued. -/
theorem cooldown_written_only_by_resend
    (t tr last : Nat) (code : String) (st : OtpState) (cd : CooldownState)
    (hcool : tr - last < 30000) :
    (handle_form_submission_redis t code st cd
        = (some ⟨code, 0, t + 300000⟩, cd)) ∧
    (handle_form_submission_mem t code st cd
        = (some ⟨code, 0, t + 300000⟩, cd)) ∧
    (resend_otp_redis tr code st (some last)
        = (.cooldown ((30000 - (tr - last)) / 1000), st, some last)) ∧
    (resend_otp_mem tr code st (some last)
        = (.cooldown ((30000 - (tr - last)) / 1000), st, some last)) ∧
    (resend_otp_redis t code st none
        = (.sent, some ⟨code, 0, t + 300000⟩, some t)) ∧
    (resend_otp_mem t code st none
        = (.sent, some ⟨code, 0, t + 300000⟩, some t)) := by
  have hlt : tr < last + 30000 := by omega
  refine ⟨rfl, rfl, ?_, ?_, rfl, rfl⟩
  · simp [resend_otp_redis, cooldown_get_redis, hlt, hcool]
  · simp [resend_otp_mem, hcool]

/-- Witness for C5 (amended): form submit at t = 1000; a resend at 15000 ms
with a cooldown entry from 0 fails with 15 seconds remaining; a resend
with no cooldown entry succeeds. -/
theorem cooldown_written_only_by_resend_witness :
    ((15000 : Nat) - 0 < 30000) ∧
    ((handle_form_submission_redis 1000 "123456" none none
        = (some ⟨"123456", 0, 1000 + 300000⟩, none)) ∧
      (handle_form_submission_mem 1000 "123456" none none
        = (some ⟨"123456", 0, 1000 + 300000⟩, none)) ∧
      (resend_otp_redis 15000 "123456" none (some 0)
        = (.cooldown ((30000 - (15000 - 0)) / 1000), none, some 0)) ∧
      (resend_otp_mem 15000 "123456" none (some 0)
        = (.cooldown ((30000 - (15000 - 0)) / 1000), none, some 0)) ∧
      (resend_otp_redis 1000 "123456" none none
        = (.sent, some ⟨"123456", 0, 1000 + 300000⟩, some 1000)) ∧
      (resend_otp_mem 1000 "123456" none none
        = (.sent, some ⟨"123456", 0, 1000 + 300000⟩, some 1000))) :=
  ⟨by decide,
    cooldown_written_only_by_resend 1000 15000 0 "123456" none none
      (by decide)⟩

/-- Counterexample to C6: `remainingSeconds` is not strictly positive for
every resend made strictly less than 30 seconds after the previous one.
With the cooldown written at t = 0, a resend at t = 29500 ms (29.5 s
elapsed, inside the cooldown) fails with
`remaining = int(30 - 29.5) = 0`. -/
theorem resend_remaining_zero_counterexample :
    (29500 : Nat) < 30000 ∧
    (resend_otp_redis 29500 "654321" (some ⟨"123456", 0, 300000⟩)
        (some 0)).1 = .cooldown 0 ∧
    (resend_otp_mem 29500 "654321" (some ⟨"123456", 0, 300000⟩)
        (some 0)).1 = .cooldown 0 := by
  decide

/-- C6 amended: a second resend made strictly less than 30 seconds after
the previous resend (the cooldown reference point) fails with a
CooldownError whose remainingSeconds is the truncation of
`30 - elapsedSeconds` — nonnegative, positive exactly when at most 29
seconds have elapsed, and 0 in the final fractional second; a resend 30
or more seconds after succeeds, issues a fresh record for the new code,
refreshes the cooldown, and the previously issued (different) code no
longer verifies. -/
theorem resend_cooldown_behavior
    (last t t2 t3 : Nat) (cOld cNew : String) (st : OtpState)
    (hlt : t - last < 30000) (hge : 30000 ≤ t2 - last)
    (hcn : cOld ≠ cNew) (ht3 : t3 < t2 + 300000) :
    (resend_otp_redis t cNew st (some last)
        = (.cooldown ((30000 - (t - last)) / 1000), st, some last)) ∧
    (resend_otp_mem t cNew st (some last)
        = (.cooldown ((30000 - (t - last)) / 1000), st, some last)) ∧
    (0 < (30000 - (t - last)) / 1000 ↔ t - last ≤ 29000) ∧
    (resend_otp_redis t2 cNew st (some last)
        = (.sent, some ⟨cNew, 0, t2 + 300000⟩, some t2)) ∧
    (resend_otp_mem t2 cNew st (some last)
        = (.sent, some ⟨cNew, 0, t2 + 300000⟩, some t2)) ∧
    ((verify_otp_redis t3 cOld (some ⟨cNew, 0, t2 + 300000⟩)).1
        ≠ OtpMsg.success) ∧
    ((verify_otp_mem t3 cOld (some ⟨cNew, 0, t2 + 300000⟩)).1
        ≠ OtpMsg.success) := by
  have hlt' : t < last + 30000 := by omega
  have hge' : ¬ (t2 < last + 30000) := by omega
  have hge2 : ¬ (t2 - last < 30000) := by omega
  have hm3 : ¬ (t2 + 300000 < t3) := Nat.not_lt.mpr ht3.le
  have hcn' : cNew ≠ cOld := hcn.symm
  refine ⟨?_, ?_, ?_, ?_, ?_, ?_, ?_⟩
  · simp [resend_otp_redis, cooldown_get_redis, hlt', hlt]
  · simp [resend_otp_mem, hlt]
  · omega
  · simp [resend_otp_redis, cooldown_get_redis, hge', store_otp_redis]
  · simp [resend_otp_mem, hge2, store_otp_mem]
  · simp [verify_otp_redis, ht3, hcn']
  · simp [verify_otp_mem, hm3, hcn']

/-- Witness for C6 (amended): cooldown from 0; blocked resend at 15 s with
15 s remaining; successful resend at exactly 30 s issuing "654321"; the
old code "123456" fails at 31 s. -/
theorem resend_cooldown_behavior_witness :
    ((15000 : Nat) - 0 < 30000 ∧ (30000 : Nat) ≤ 30000 - 0 ∧
      "123456" ≠ "654321" ∧ (31000 : Nat) < 30000 + 300000) ∧
    ((resend_otp_redis 15000 "654321" (some ⟨"123456", 0, 300000⟩) (some 0)
        = (.cooldown ((30000 - (15000 - 0)) / 1000),
            some ⟨"123456", 0, 300000⟩, some 0)) ∧
      (resend_otp_mem 15000 "654321" (some ⟨"123456", 0, 300000⟩) (some 0)
        = (.cooldown ((30000 - (15000 - 0)) / 1000),
            some ⟨"123456", 0, 300000⟩, some 0)) ∧
      (0 < (30000 - (15000 - 0)) / 1000 ↔ (15000 : Nat) - 0 ≤ 29000) ∧
      (resend_otp_redis 30000 "654321" (some ⟨"123456", 0, 300000⟩) (some 0)
        = (.sent, some ⟨"654321", 0, 30000 + 300000⟩, some 30000)) ∧
      (resend_otp_mem 30000 "654321" (some ⟨"123456", 0, 300000⟩) (some 0)
        = (.sent, some ⟨"654321", 0, 30000 + 300000⟩, some 30000)) ∧
      ((verify_otp_redis 31000 "123456"
          (some ⟨"654321", 0, 30000 + 300000⟩)).1 ≠ OtpMsg.success) ∧
      ((verify_otp_mem 31000 "123456"
          (some ⟨"654321", 0, 30000 + 300000⟩)).1 ≠ OtpMsg.success)) :=
  ⟨⟨by decide, by decide, by decide, by decide⟩,
    resend_cooldown_behavior 0 15000 30000 31000 "123456" "654321"
      (some ⟨"123456", 0, 300000⟩) (by decide) (by decide) (by decide)
      (by decide)⟩

/-- C4: codes are single-use and issuance overwrites. After `issue`, a
verify with the correct code returns Verified and deletes the record; a
second verify with the same code finds nothing (NotFound). Issuing a new
code replaces the record with `attempts` reset to 0, and a verify with
the (different) old code no longer returns Verified. Both backends. -/
theorem single_use_and_overwrite
    (c cOld cNew : String) (t0 t1 t2 : Nat) (st : OtpState)
    (h1 : t1 < t0 + 300000) (hne : cOld ≠ cNew) :
    (verify_otp_redis t1 c (store_otp_redis t0 c none) = (.success, none)) ∧
    (classify (verify_otp_redis t2 c none).1 = .NotFound) ∧
    (verify_otp_mem t1 c (store_otp_mem t0 c none) = (.success, none)) ∧
    (classify (verify_otp_mem t2 c none).1 = .NotFound) ∧
    (store_otp_redis t0 cNew st = some ⟨cNew, 0, t0 + 300000⟩) ∧
    (store_otp_mem t0 cNew st = some ⟨cNew, 0, t0 + 300000⟩) ∧
    ((verify_otp_redis t1 cOld (store_otp_redis t0 cNew st)).1
        ≠ OtpMsg.success) ∧
    ((verify_otp_mem t1 cOld (store_otp_mem t0 cNew st)).1
        ≠ OtpMsg.success) := by
  have hmem : ¬ (t0 + 300000 < t1) := Nat.not_lt.mpr h1.le
  have hne' : cNew ≠ cOld := hne.symm
  refine ⟨?_, ?_, ?_, ?_, ?_, ?_, ?_, ?_⟩ <;>
    simp [verify_otp_redis, verify_otp_mem, store_otp_redis, store_otp_mem,
      classify, h1, hmem, hne']

/-- Witness for C4: code "123456" issued at 0, verified at 1000; re-issue
"654321" over a prior record, then the old code "123456" fails. -/
theorem single_use_and_overwrite_witness :
    ((1000 : Nat) < 0 + 300000 ∧ "123456" ≠ "654321") ∧
    ((verify_otp_redis 1000 "123456" (store_otp_redis 0 "123456" none)
        = (.success, none)) ∧
      (classify (verify_otp_redis 2000 "123456" none).1 = .NotFound) ∧
      (verify_otp_mem 1000 "123456" (store_otp_mem 0 "123456" none)
        = (.success, none)) ∧
      (classify (verify_otp_mem 2000 "123456" none).1 = .NotFound) ∧
      (store_otp_redis 0 "654321" (some ⟨"123456", 1, 250000⟩)
        = some ⟨"654321", 0, 0 + 300000⟩) ∧
      (store_otp_mem 0 "654321" (some ⟨"123456", 1, 250000⟩)
        = some ⟨"654321", 0, 0 + 300000⟩) ∧
      ((verify_otp_redis 1000 "123456"
          (store_otp_redis 0 "654321" (some ⟨"123456", 1, 250000⟩))).1
        ≠ OtpMsg.success) ∧
      ((verify_otp_mem 1000 "123456"
          (store_otp_mem 0 "654321" (some ⟨"123456", 1, 250000⟩))).1
        ≠ OtpMsg.success)) :=
  ⟨⟨by decide, by decide⟩,
    single_use_and_overwrite "123456" "123456" "654321" 0 1000 2000
      (some ⟨"123456", 1, 250000⟩) (by decide) (by decide)⟩

/-- Rejection leaves the counter untouched: one pass at or above the
ceiling inside a live window rejects and returns the state unchanged. -/
theorem rate_limit_step_at_ceiling (limit window t c e : Nat)
    (ht : t < e) (hc : limit ≤ c) :
    rate_limit_step limit window t (some ⟨c, e⟩) = (.rejected, some ⟨c, e⟩) := by
  simp [rate_limit_step, ht, hc]

/-- Below the ceiling inside a live window the pass admits and increments,
keeping the window expiry. -/
theorem rate_limit_step_below_ceiling (limit window t c e : Nat)
    (ht : t < e) (hc : ¬ limit ≤ c) :
    rate_limit_step limit window t (some ⟨c, e⟩)
      = (.admitted, some ⟨c + 1, e⟩) := by
  simp [rate_limit_step, ht, hc]

/-- Closed form of a run of rate-limit passes inside a live window: from a
counter `c ≤ limit` with expiry `e`, any calls at times before `e` drive
the counter to `min (c + n) limit` and never move the expiry. -/
theorem rate_limit_run_in_window (limit window : Nat) :
    ∀ (ts : List Nat) (c e : Nat), c ≤ limit → (∀ u ∈ ts, u < e) →
      rate_limit_run limit window (some ⟨c, e⟩) ts
        = some ⟨min (c + ts.length) limit, e⟩ := by
  intro ts
  induction ts with
  | nil =>
    intro c e hc _
    simp [rate_limit_run, Nat.min_eq_left hc]
  | cons u ts ih =>
    intro c e hc hmem
    have hu : u < e := hmem u (List.mem_cons_self u ts)
    have hrest : ∀ v ∈ ts, v < e := fun v hv =>
      hmem v (List.mem_cons_of_mem u hv)
    by_cases hlim : limit ≤ c
    · have hkey : min (c + ts.length) limit = min (c + (ts.length + 1)) limit := by
        omega
      simp only [rate_limit_run,
        rate_limit_step_at_ceiling limit window u c e hu hlim]
      rw [ih c e hc hrest, List.length_cons, hkey]
    · have hc1 : c + 1 ≤ limit := by omega
      have hkey : min (c + 1 + ts.length) limit
          = min (c + (ts.length + 1)) limit := by
        omega
      simp only [rate_limit_run,
        rate_limit_step_below_ceiling limit window u c e hu hlim]
      rw [ih (c + 1) e hc1 hrest, List.length_cons, hkey]

/-- C7: within one active window the form-submit limiter (ceiling 10,
3600-second window) admits the first call with a fresh counter of 1;
after `n` further in-window calls the counter is `min (1 + n) 10`, so it
never exceeds the ceiling; the next in-window call is admitted exactly
when fewer than 10 calls have happened so far (the 11th and all later
in-window calls are rejected, without incrementing — the rejecting pass
returns the state unchanged per `rate_limit_step_at_ceiling`); and a call
at or after the window expiry is admitted again on a fresh window with
count 1. -/
theorem form_rate_limit_window
    (t0 u t2 : Nat) (ts : List Nat)
    (hts : ∀ v ∈ ts, v < t0 + 3600000)
    (hu : u < t0 + 3600000) (ht2 : t0 + 3600000 ≤ t2) :
    (form_rate_step t0 none = (.admitted, some ⟨1, t0 + 3600000⟩)) ∧
    (rate_limit_run 10 3600000 (some ⟨1, t0 + 3600000⟩) ts
        = some ⟨min (1 + ts.length) 10, t0 + 3600000⟩) ∧
    (min (1 + ts.length) 10 ≤ 10) ∧
    ((form_rate_step u (some ⟨min (1 + ts.length) 10, t0 + 3600000⟩)).1
        = if 1 + ts.length < 10 then Admit.admitted else Admit.rejected) ∧
    (form_rate_step t2 (some ⟨min (1 + ts.length) 10, t0 + 3600000⟩)
        = (.admitted, some ⟨1, t2 + 3600000⟩)) := by
  have h2 : ¬ (t2 < t0 + 3600000) := Nat.not_lt.mpr ht2
  refine ⟨rfl, ?_, ?_, ?_, ?_⟩
  · exact rate_limit_run_in_window 10 3600000 ts 1 (t0 + 3600000)
      (by omega) hts
  · omega
  · by_cases hn : 1 + ts.length < 10
    · have hcnt : ¬ ((10 : Nat) ≤ min (1 + ts.length) 10) := by omega
      rw [if_pos hn, form_rate_step,
        rate_limit_step_below_ceiling 10 3600000 u _ _ hu hcnt]
    · have hcnt : (10 : Nat) ≤ min (1 + ts.length) 10 := by omega
      rw [if_neg hn, form_rate_step,
        rate_limit_step_at_ceiling 10 3600000 u _ _ hu hcnt]
  · simp [form_rate_step, rate_limit_step, h2]

/-- Witness for C7: first call at t0 = 0, nine further calls at 1..9 ms
(ten admitted in total, counter 10), an 11th in-window call at 10 ms is
rejected, and a call at 3600000 ms (window lapsed) is admitted on a
fresh window. -/
theorem form_rate_limit_window_witness :
    ((∀ v ∈ [1, 2, 3, 4, 5, 6, 7, 8, 9], v < (0 : Nat) + 3600000) ∧
      (10 : Nat) < 0 + 3600000 ∧ (0 : Nat) + 3600000 ≤ 3600000) ∧
    ((form_rate_step 0 none = (.admitted, some ⟨1, 0 + 3600000⟩)) ∧
      (rate_limit_run 10 3600000 (some ⟨1, 0 + 3600000⟩)
          [1, 2, 3, 4, 5, 6, 7, 8, 9]
        = some ⟨min (1 + ([1, 2, 3, 4, 5, 6, 7, 8, 9] : List Nat).length) 10,
            0 + 3600000⟩) ∧
      (min (1 + ([1, 2, 3, 4, 5, 6, 7, 8, 9] : List Nat).length) 10 ≤ 10) ∧
      ((form_rate_step 10
          (some ⟨min (1 + ([1, 2, 3, 4, 5, 6, 7, 8, 9] : List Nat).length) 10,
            0 + 3600000⟩)).1
        = if 1 + ([1, 2, 3, 4, 5, 6, 7, 8, 9] : List Nat).length < 10
            then Admit.admitted else Admit.rejected) ∧
      (form_rate_step 3600000
          (some ⟨min (1 + ([1, 2, 3, 4, 5, 6, 7, 8, 9] : List Nat).length) 10,
            0 + 3600000⟩)
        = (.admitted, some ⟨1, 3600000 + 3600000⟩))) :=
  ⟨⟨by decide, by decide, by decide⟩,
    form_rate_limit_window 0 10 3600000 [1, 2, 3, 4, 5, 6, 7, 8, 9]
      (by decide) (by decide) (by decide)⟩
